import Mathlib

/-!
Verification of the World Bank data MCP server (`src/server.py`).

The server's handlers are straight-line data transformations over
(a) a CSV dataset reloaded on every call and (b) JSON responses of two
external HTTP APIs.  We embed them shallowly:

* JSON values become the inductive type `Json`.
* Python semantics that the code relies on (dict `.get` with default,
  list indexing that can raise `IndexError`, truthiness of `if x:`)
  become explicit Lean functions; operations that can raise a Python
  exception return `Except String _`, the `String` being the exception
  message.
* Each outbound HTTP fetch is an oracle: a `FetchOutcome` value saying
  whether the request raised `httpx.HTTPStatusError`, raised some other
  exception, or succeeded with a parsed body.  The handlers' `try/except`
  blocks then become a `match` on that outcome.
* The polars DataFrame is a `List Row`; `_load_data` is parameterised by
  the on-disk state (`none` = file missing).
-/

namespace WorldBankServer

/-- A JSON value (the shape of parsed API responses and of handler results). -/
inductive Json where
  | null
  | bool (b : Bool)
  | num (n : Int)
  | str (s : String)
  | arr (elems : List Json)
  | obj (fields : List (String × Json))

/-- First binding of a key in an association list (Python dict lookup;
dict keys are unique, so "first" is exact). -/
def assoc : List (String × Json) → String → Option Json
  | [], _ => none
  | (k, v) :: rest, key => if k = key then some v else assoc rest key

/-- Python truthiness (`if x:`) of a JSON value. -/
def pyTruthy : Json → Bool
  | Json.null => false
  | Json.bool b => b
  | Json.num n => n != 0
  | Json.str s => s != ""
  | Json.arr xs => !xs.isEmpty
  | Json.obj fs => !fs.isEmpty

/-- Python `d.get(key, default)`: raises `AttributeError` when the receiver
is not a dict, otherwise total. -/
def pyGet (j : Json) (key : String) (default : Json) : Except String Json :=
  match j with
  | Json.obj fs => Except.ok ((assoc fs key).getD default)
  | _ => Except.error "AttributeError: object has no attribute get"

/-- Python `x[i]` on a (supposed) list: `IndexError` out of range,
`TypeError` when the receiver is not a list. -/
def pyIndex (j : Json) (i : Nat) : Except String Json :=
  match j with
  | Json.arr xs =>
      match xs.get? i with
      | some v => Except.ok v
      | none => Except.error "list index out of range"
  | _ => Except.error "TypeError: object is not subscriptable"

/-- Key lookup on a JSON object result (`none` when the key is absent or the
value is not an object).  Used to state properties of returned payloads. -/
def Json.getKey? (j : Json) (key : String) : Option Json :=
  match j with
  | Json.obj fs => assoc fs key
  | _ => none

/-- Outcome of one outbound HTTP fetch, as observed by the `try/except`
around it: `response.raise_for_status()` raising `httpx.HTTPStatusError`,
any other exception (with `str(e)`), or success with the parsed payload. -/
inductive FetchOutcome (α : Type) where
  | httpStatusError
  | otherError (msg : String)
  | success (data : α)

/-! ## Dataset model (`world_bank_indicators.csv` rows) -/

/-- One row of the CSV dataset.  The spec guarantees at least the columns
`countryiso3code` and `country`; the remaining columns (indicator, date,
value, ...) are carried opaquely in `others`. -/
structure Row where
  countryiso3code : String
  country : String
  others : List (String × Json)

/-- Serialisation of one row as polars `write_json` emits it. -/
def rowToJson (r : Row) : Json :=
  Json.obj (("countryiso3code", Json.str r.countryiso3code)
    :: ("country", Json.str r.country) :: r.others)

/-- `_load_data` (src/server.py:48-52): re-reads the CSV on every call and
raises `FileNotFoundError` when the file is missing.  `disk` is the on-disk
state: `none` means `DATA_FILE.exists()` is false. -/
def _load_data (path : String) (disk : Option (List Row)) :
    Except String (List Row) :=
  match disk with
  | none => Except.error ("Data file not found: " ++ path)
  | some df => Except.ok df

/-! ## Resource handlers (src/server.py:100-125) -/

/-- The pure part of `get_countries` (src/server.py:100-113), after
`_load_data` has produced the frame: select the two columns, drop duplicate
pairs, sort ascending by `countryiso3code`, and serialise — or return the
`No countries found` error object when the frame is empty. -/
def get_countries (df : List Row) : Json :=
  let pairs := (df.map (fun r => (r.countryiso3code, r.country))).dedup
  let sorted := pairs.insertionSort (fun a b => a.1 ≤ b.1)
  if sorted.length = 0 then
    Json.obj [("error", Json.str "No countries found")]
  else
    Json.arr (sorted.map (fun p =>
      Json.obj [("countryiso3code", Json.str p.1), ("country", Json.str p.2)]))

/-- The pure part of `get_country_indicators` (src/server.py:116-125):
filter rows by exact string equality on `countryiso3code`; if nothing
matches return the `Country not found` error object, else serialise the
filtered rows. -/
def get_country_indicators (df : List Row) (code : String) : Json :=
  let filtered := df.filter (fun r => r.countryiso3code == code)
  if filtered.length = 0 then
    Json.obj [("error", Json.str ("Country not found: " ++ code))]
  else
    Json.arr (filtered.map rowToJson)

/-- `get_countries` as the full handler: `_load_data` runs first, outside
any `try`, so its failure propagates. -/
def get_countries_handler (path : String) (disk : Option (List Row)) :
    Except String Json := do
  let df ← _load_data path disk
  return get_countries df

/-- `get_country_indicators` as the full handler: `_load_data` runs first,
outside any `try`, so its failure propagates. -/
def get_country_indicators_handler (path : String) (disk : Option (List Row))
    (code : String) : Except String Json := do
  let df ← _load_data path disk
  return get_country_indicators df code

/-- Elements of a JSON array result (empty for non-arrays); extracts the row
list from a serialised lookup result. -/
def jsonRows : Json → List Json
  | Json.arr xs => xs
  | _ => []

/-! ## Outbound HTTP helpers (src/server.py:55-81) -/

/-- Python truthiness of `year` (an `Optional[int]`): `None` and `0` are
falsy, every other int truthy. -/
def pyTruthyOptInt : Option Int → Bool
  | none => false
  | some y => y != 0

/-- The query parameters `_fetch_world_bank_indicator` sends
(src/server.py:71-73): `format=json`, `per_page=100`, and — only when
`if year:` holds, i.e. `year` is a truthy int — `date=str(year)`. -/
def wb_params (year : Option Int) : List (String × String) :=
  let params := [("format", "json"), ("per_page", "100")]
  if pyTruthyOptInt year then
    params ++ [("date", toString (year.getD 0))]
  else
    params

/-- The body-processing tail of `_fetch_world_bank_indicator`
(src/server.py:78-81): with `body` the parsed top-level JSON array,
return `[]` when `len(data) < 2 or not data[1]`, else return `data[1]`. -/
def fetchWB_process (body : List Json) : Json :=
  match body with
  | _ :: second :: _ => if pyTruthy second then second else Json.arr []
  | _ => Json.arr []

/-! ## Tool handlers (src/server.py:133-219) -/

/-- `get_country_info` (src/server.py:133-153).  The fetch oracle carries,
on success, `response.json()[0]` (the `[0]` happens inside the `try`, so an
empty response array is an `otherError`).  The reshaping of `data` happens
OUTSIDE the `try`, so any exception it raises — notably the `IndexError`
from `data.get("capital", [None])[0]` on an empty capital list — escapes
as `Except.error`. -/
def get_country_info (fetch : FetchOutcome Json) (country_code : String) :
    Except String Json :=
  match fetch with
  | FetchOutcome.httpStatusError =>
      Except.ok (Json.obj [("error",
        Json.str ("Country not found: " ++ country_code))])
  | FetchOutcome.otherError msg =>
      Except.ok (Json.obj [("error", Json.str msg)])
  | FetchOutcome.success data => do
      let nameObj ← pyGet data "name" (Json.obj [])
      let name ← pyGet nameObj "common" Json.null
      let capitalList ← pyGet data "capital" (Json.arr [Json.null])
      let capital ← pyIndex capitalList 0
      let region ← pyGet data "region" Json.null
      let subregion ← pyGet data "subregion" Json.null
      let languagesObj ← pyGet data "languages" (Json.obj [])
      let languages ←
        match languagesObj with
        | Json.obj fs => Except.ok (Json.arr (fs.map (fun f => f.2)))
        | _ => Except.error "TypeError: object is not a dict"
      let currenciesObj ← pyGet data "currencies" (Json.obj [])
      let currencies ←
        match currenciesObj with
        | Json.obj fs => Except.ok (Json.arr (fs.map (fun f => Json.str f.1)))
        | _ => Except.error "TypeError: object is not a dict"
      let population ← pyGet data "population" Json.null
      let flag ← pyGet data "flag" Json.null
      return Json.obj [("name", name), ("capital", capital),
        ("region", region), ("subregion", subregion),
        ("languages", languages), ("currencies", currencies),
        ("population", population), ("flag", flag)]

/-- The `No data available` result object (src/server.py:172-179). -/
def noDataObj (code indicator : String) (year : Int) : Json :=
  Json.obj [("country", Json.str code), ("indicator", Json.str indicator),
    ("year", Json.num year), ("value", Json.null),
    ("error", Json.str "No data available")]

/-- `get_live_indicator` (src/server.py:156-190).  The fetch oracle carries,
on success, the parsed top-level JSON array of the World Bank response;
`fetchWB_process` is the part of `_fetch_world_bank_indicator` that runs
after `raise_for_status()`, still inside the handler's `try`.  The
extraction of `entry = data[0]` and the `entry.get(...)` calls run outside
the `try`, so an exception there escapes as `Except.error`. -/
def get_live_indicator (fetch : FetchOutcome (List Json))
    (country_code indicator : String) (year : Int) : Except String Json :=
  match fetch with
  | FetchOutcome.httpStatusError =>
      Except.ok (Json.obj [("error",
        Json.str ("Invalid request for " ++ country_code ++ " / " ++ indicator))])
  | FetchOutcome.otherError msg =>
      Except.ok (Json.obj [("error", Json.str msg)])
  | FetchOutcome.success body =>
      let data := fetchWB_process body
      if pyTruthy data then do
        let entry ← pyIndex data 0
        let countryObj ← pyGet entry "country" (Json.obj [])
        let country_name ← pyGet countryObj "value" Json.null
        let indicatorObj ← pyGet entry "indicator" (Json.obj [])
        let indicator_name ← pyGet indicatorObj "value" Json.null
        let value ← pyGet entry "value" Json.null
        return Json.obj [("country", Json.str country_code),
          ("country_name", country_name),
          ("indicator", Json.str indicator),
          ("indicator_name", indicator_name),
          ("year", Json.num year), ("value", value)]
      else
        Except.ok (noDataObj country_code indicator year)

/-- The per-position error record `compare_countries` substitutes when the
per-code call raises (src/server.py:209-217). -/
def errRecord (code indicator : String) (year : Int) (msg : String) : Json :=
  Json.obj [("country", Json.str code), ("indicator", Json.str indicator),
    ("year", Json.num year), ("value", Json.null),
    ("error", Json.str msg)]

/-- One iteration of the `compare_countries` loop (src/server.py:204-217):
call `get_live_indicator` for the code; append its result, or the error
record if it raised.  `fetchFor` gives each code's fetch outcome. -/
def compareEntry (fetchFor : String → FetchOutcome (List Json))
    (indicator : String) (year : Int) (code : String) : Json :=
  match get_live_indicator (fetchFor code) code indicator year with
  | Except.ok r => r
  | Except.error e => errRecord code indicator year e

/-- `compare_countries` (src/server.py:193-219): the loop appends one
result per code, in list order. -/
def compare_countries (fetchFor : String → FetchOutcome (List Json))
    (country_codes : List String) (indicator : String) (year : Int) :
    List Json :=
  country_codes.map (compareEntry fetchFor indicator year)

/-- A sample dataset row used to instantiate hypotheses at concrete inputs. -/
def sampleRow : Row :=
  { countryiso3code := "USA", country := "United States",
    others := [("indicator", Json.str "NY.GDP.MKTP.CD"),
               ("date", Json.num 2022), ("value", Json.num 25462700000000)] }

/-! ## Theorems -/

instance : IsTotal (String × String) (fun a b => a.1 ≤ b.1) :=
  ⟨fun a b => le_total a.1 b.1⟩

instance : IsTrans (String × String) (fun a b => a.1 ≤ b.1) :=
  ⟨fun _ _ _ hab hbc => le_trans hab hbc⟩

/-- C1: `compare_countries` returns one result per input country code, in
input order: the output length equals the input length, and the entry at
every position `i` is exactly the processing of the code at position `i`
(no deduplication, no re-sorting). -/
theorem compare_countries_preserves_order
    (fetchFor : String → FetchOutcome (List Json))
    (codes : List String) (indicator : String) (year : Int) :
    (compare_countries fetchFor codes indicator year).length = codes.length ∧
    ∀ i : Nat, (compare_countries fetchFor codes indicator year)[i]?
      = codes[i]?.map (compareEntry fetchFor indicator year) := by
  refine ⟨by simp [compare_countries], fun i => ?_⟩
  simp [compare_countries]

/-- C2: a failure in `compare_countries` is isolated to its own slot: if
the per-code invocation for position `i` raises, the output at `i` is the
error record for that code, the output still has one entry per input, and
every other position holds the nominal per-code result, unaffected by the
failure. -/
theorem compare_countries_isolates_failure
    (fetchFor : String → FetchOutcome (List Json))
    (codes : List String) (indicator : String) (year : Int)
    (i : Nat) (code_i : String) (e : String)
    (hcode : codes[i]? = some code_i)
    (hfail : get_live_indicator (fetchFor code_i) code_i indicator year
      = Except.error e) :
    (compare_countries fetchFor codes indicator year)[i]?
      = some (errRecord code_i indicator year e) ∧
    (compare_countries fetchFor codes indicator year).length = codes.length ∧
    ∀ j : Nat, j ≠ i →
      (compare_countries fetchFor codes indicator year)[j]?
        = codes[j]?.map (compareEntry fetchFor indicator year) := by
  refine ⟨?_, by simp [compare_countries], fun j _ => by simp [compare_countries]⟩
  have h1 : (compare_countries fetchFor codes indicator year)[i]?
      = some (compareEntry fetchFor indicator year code_i) := by
    unfold compare_countries
    rw [List.getElem?_map, hcode, Option.map_some']
  rw [h1]
  unfold compareEntry
  rw [hfail]

/-- C2 witness: a concrete batch where the call for the only code raises a
`TypeError` (the upstream data array slot holds a number, so `data[0]`
fails), and the output slot carries the error record. -/
theorem compare_countries_isolates_failure_witness :
    (compare_countries (fun _ => FetchOutcome.success [Json.null, Json.num 1])
      ["AAA"] "SP.POP.TOTL" 2022)[0]?
      = some (errRecord "AAA" "SP.POP.TOTL" 2022
          "TypeError: object is not subscriptable") :=
  (compare_countries_isolates_failure
    (fun _ => FetchOutcome.success [Json.null, Json.num 1])
    ["AAA"] "SP.POP.TOTL" 2022 0 "AAA"
    "TypeError: object is not subscriptable" rfl rfl).1

/-- C4: when the upstream fetch succeeds but the response is shorter than
two elements, or its data slot is absent/empty (falsy), `get_live_indicator`
returns exactly the `No data available` object echoing its inputs, with
`value` null — and raises nothing. -/
theorem get_live_indicator_no_data (body : List Json)
    (code indicator : String) (year : Int)
    (h : body.length < 2 ∨
      ∃ a b rest, body = a :: b :: rest ∧ pyTruthy b = false) :
    get_live_indicator (FetchOutcome.success body) code indicator year
      = Except.ok (noDataObj code indicator year) := by
  have hdata : pyTruthy (fetchWB_process body) = false := by
    rcases h with h | ⟨a, b, rest, hbody, hb⟩
    · match body with
      | [] => rfl
      | [x] => rfl
      | x :: y :: rest => exact absurd h (by simp)
    · subst hbody
      show pyTruthy (if pyTruthy b = true then b else Json.arr []) = false
      rw [hb]
      rfl
  simp [get_live_indicator, hdata]

/-- C4 witness: a fetch succeeding with an empty top-level array yields the
exact `No data available` record. -/
theorem get_live_indicator_no_data_witness :
    get_live_indicator (FetchOutcome.success []) "BRA" "SP.POP.TOTL" 2020
      = Except.ok (noDataObj "BRA" "SP.POP.TOTL" 2020) :=
  get_live_indicator_no_data [] "BRA" "SP.POP.TOTL" 2020 (Or.inl (by decide))

/-- C6: when no row of the dataset carries the requested code, the lookup
returns exactly the `Country not found` error object (a value, not a raised
failure). -/
theorem get_country_indicators_unknown (df : List Row) (code : String)
    (h : ∀ r, r ∈ df → r.countryiso3code ≠ code) :
    get_country_indicators df code
      = Json.obj [("error", Json.str ("Country not found: " ++ code))] := by
  have hf : df.filter (fun r => r.countryiso3code == code) = [] := by
    rw [List.filter_eq_nil_iff]
    intro r hr
    simp [h r hr]
  simp [get_country_indicators, hf]

/-- C6 witness: looking up `ZZZ` in a dataset holding only a `USA` row
returns the error object. -/
theorem get_country_indicators_unknown_witness :
    get_country_indicators [sampleRow] "ZZZ"
      = Json.obj [("error", Json.str ("Country not found: " ++ "ZZZ"))] :=
  get_country_indicators_unknown [sampleRow] "ZZZ" (by decide)

/-- `Except.ok` feeds its value to the continuation. -/
theorem ok_bind {α β : Type} (a : α) (f : α → Except String β) :
    (Except.ok a >>= f) = f a := rfl

/-- A raised exception short-circuits the rest of the block. -/
theorem error_bind {α β : Type} (e : String) (f : α → Except String β) :
    ((Except.error e : Except String α) >>= f) = Except.error e := rfl

/-- `pure` in the `Except` monad is `Except.ok`. -/
theorem pure_eq_ok {α : Type} (a : α) :
    (pure a : Except String α) = Except.ok a := rfl

/-- C5: the country-indicator lookup filters by case-sensitive exact string
equality on `countryiso3code`: every dataset row carrying the requested code
appears (serialised) in the result rows, and every result row is the
serialisation of a dataset row whose code equals the input exactly. -/
theorem get_country_indicators_exact (df : List Row) (code : String) :
    (∀ r, r ∈ df → r.countryiso3code = code →
      rowToJson r ∈ jsonRows (get_country_indicators df code)) ∧
    (∀ j, j ∈ jsonRows (get_country_indicators df code) →
      ∃ r, r ∈ df ∧ r.countryiso3code = code ∧ j = rowToJson r) := by
  unfold get_country_indicators
  by_cases h : (df.filter (fun r => r.countryiso3code == code)).length = 0
  · rw [if_pos h]
    constructor
    · intro r hr hc
      exfalso
      have hmem : r ∈ df.filter (fun r => r.countryiso3code == code) :=
        List.mem_filter.mpr ⟨hr, by simp [hc]⟩
      rw [List.length_eq_zero] at h
      rw [h] at hmem
      exact absurd hmem (List.not_mem_nil r)
    · intro j hj
      exact absurd hj (by simp [jsonRows])
  · rw [if_neg h]
    constructor
    · intro r hr hc
      have hmem : r ∈ df.filter (fun r => r.countryiso3code == code) :=
        List.mem_filter.mpr ⟨hr, by simp [hc]⟩
      simpa [jsonRows] using List.mem_map_of_mem rowToJson hmem
    · intro j hj
      simp only [jsonRows] at hj
      rcases List.mem_map.mp hj with ⟨r, hrf, rfl⟩
      rcases List.mem_filter.mp hrf with ⟨hrdf, hpred⟩
      exact ⟨r, hrdf, by simpa using hpred, rfl⟩

/-- C5 witness: the sample `USA` row is returned by a lookup for `USA` over
the singleton dataset. -/
theorem get_country_indicators_exact_witness :
    rowToJson sampleRow ∈ jsonRows (get_country_indicators [sampleRow] "USA") :=
  (get_country_indicators_exact [sampleRow] "USA").1 sampleRow (by simp) rfl

/-- C8: when the backing file is missing, `_load_data` fails, and both data
resource handlers propagate that failure unchanged — neither converts it
into a structured `error` JSON object. -/
theorem load_failure_propagates (path : String) (code : String) :
    _load_data path none = Except.error ("Data file not found: " ++ path) ∧
    get_countries_handler path none
      = Except.error ("Data file not found: " ++ path) ∧
    get_country_indicators_handler path none code
      = Except.error ("Data file not found: " ++ path) :=
  ⟨rfl, rfl, rfl⟩

/-- C7: for a non-empty dataset, the country list is exactly the distinct
(code, name) pairs of the dataset — no duplicate pair, sorted ascending by
country code. -/
theorem get_countries_distinct_sorted (df : List Row) (h : df ≠ []) :
    ∃ pairs : List (String × String),
      get_countries df = Json.arr (pairs.map (fun p =>
        Json.obj [("countryiso3code", Json.str p.1),
                  ("country", Json.str p.2)])) ∧
      pairs.Nodup ∧
      pairs.Pairwise (fun a b => a.1 ≤ b.1) ∧
      ∀ p : String × String, (p ∈ pairs ↔
        ∃ r, r ∈ df ∧ r.countryiso3code = p.1 ∧ r.country = p.2) := by
  refine ⟨((df.map (fun r => (r.countryiso3code, r.country))).dedup).insertionSort
    (fun a b => a.1 ≤ b.1), ?_, ?_, ?_, ?_⟩
  · unfold get_countries
    rw [if_neg]
    intro hlen
    rw [List.length_eq_zero] at hlen
    have hperm := List.perm_insertionSort (fun a b : String × String => a.1 ≤ b.1)
      ((df.map (fun r => (r.countryiso3code, r.country))).dedup)
    rw [hlen] at hperm
    have hd := hperm.symm.eq_nil
    rw [List.dedup_eq_nil, List.map_eq_nil_iff] at hd
    exact h hd
  · exact ((List.perm_insertionSort _ _).nodup_iff).mpr (List.nodup_dedup _)
  · exact List.sorted_insertionSort _ _
  · intro p
    rw [(List.perm_insertionSort _ _).mem_iff, List.mem_dedup, List.mem_map]
    constructor
    · rintro ⟨r, hr, heq⟩
      exact ⟨r, hr, congrArg Prod.fst heq, congrArg Prod.snd heq⟩
    · rintro ⟨r, hr, h1, h2⟩
      refine ⟨r, hr, ?_⟩
      cases p
      simp_all

/-- C7 witness: the properties instantiated on the singleton sample
dataset. -/
theorem get_countries_distinct_sorted_witness :
    ∃ pairs : List (String × String),
      get_countries [sampleRow] = Json.arr (pairs.map (fun p =>
        Json.obj [("countryiso3code", Json.str p.1),
                  ("country", Json.str p.2)])) ∧
      pairs.Nodup ∧
      pairs.Pairwise (fun a b => a.1 ≤ b.1) ∧
      ∀ p : String × String, (p ∈ pairs ↔
        ∃ r, r ∈ [sampleRow] ∧ r.countryiso3code = p.1 ∧ r.country = p.2) :=
  get_countries_distinct_sorted [sampleRow] (by simp)

/-- C9 counterexample: `year = 0` is a provided year, yet — because the
code guards the parameter with Python truthiness (`if year:`) — the request
carries no `date` parameter at all. -/
theorem wb_params_zero_year_counterexample :
    List.lookup "date" (wb_params (some 0)) = none ∧
    ¬ List.lookup "date" (wb_params (some 0)) = some (toString (0 : Int)) := by
  constructor
  · rfl
  · intro hcon
    exact Option.noConfusion hcon

/-- C9 (amended): every outbound World Bank request asks for JSON format
and up to 100 results per page; the `date` filter is present and equal to
the year exactly when a provided year is non-zero (truthy), and absent when
the year is absent or zero. -/
theorem wb_params_query (year : Option Int) :
    List.lookup "format" (wb_params year) = some "json" ∧
    List.lookup "per_page" (wb_params year) = some "100" ∧
    (∀ y : Int, year = some y → y ≠ 0 →
      List.lookup "date" (wb_params year) = some (toString y)) ∧
    ((year = none ∨ year = some 0) →
      List.lookup "date" (wb_params year) = none) := by
  match year with
  | none =>
      refine ⟨rfl, rfl, ?_, fun _ => rfl⟩
      intro y hy
      exact absurd hy (by simp)
  | some y =>
      by_cases hy : y = 0
      · subst hy
        refine ⟨rfl, rfl, ?_, fun _ => rfl⟩
        intro z hz hnz
        injection hz with hz
        exact absurd hz.symm hnz
      · have ht : pyTruthyOptInt (some y) = true := by
          simp [pyTruthyOptInt, hy]
        have hw : wb_params (some y)
            = [("format", "json"), ("per_page", "100"), ("date", toString y)] := by
          simp [wb_params, ht]
        refine ⟨by rw [hw]; rfl, by rw [hw]; rfl, ?_, ?_⟩
        · intro z hz _
          injection hz with hz
          subst hz
          rw [hw]; rfl
        · intro hcon
          rcases hcon with hcon | hcon
          · exact absurd hcon (by simp)
          · injection hcon with hcon
            exact absurd hcon hy

/-- C9 witness: with year 2022 the `date` parameter is present and equals
`"2022"`; with no year it is absent. -/
theorem wb_params_query_witness :
    List.lookup "date" (wb_params (some 2022)) = some (toString (2022 : Int)) ∧
    List.lookup "date" (wb_params none) = none :=
  ⟨(wb_params_query (some 2022)).2.2.1 2022 rfl (by decide),
   (wb_params_query none).2.2.2 (Or.inl rfl)⟩

/-- C10: when `get_live_indicator` succeeds with data, the returned object
echoes the input country code and year verbatim (the upstream record's own
country/date fields are not used for these keys) and carries no `error`
key. -/
theorem get_live_indicator_echoes_inputs (body : List Json)
    (code indicator : String) (year : Int) (j : Json)
    (hdata : pyTruthy (fetchWB_process body) = true)
    (hok : get_live_indicator (FetchOutcome.success body) code indicator year
      = Except.ok j) :
    j.getKey? "country" = some (Json.str code) ∧
    j.getKey? "year" = some (Json.num year) ∧
    j.getKey? "error" = none := by
  simp only [get_live_indicator, hdata, if_true] at hok
  rcases h1 : pyIndex (fetchWB_process body) 0 with e1 | entry
  · rw [h1, error_bind] at hok
    exact Except.noConfusion hok
  rw [h1, ok_bind] at hok
  rcases h2 : pyGet entry "country" (Json.obj []) with e2 | countryObj
  · rw [h2, error_bind] at hok
    exact Except.noConfusion hok
  rw [h2, ok_bind] at hok
  rcases h3 : pyGet countryObj "value" Json.null with e3 | country_name
  · rw [h3, error_bind] at hok
    exact Except.noConfusion hok
  rw [h3, ok_bind] at hok
  rcases h4 : pyGet entry "indicator" (Json.obj []) with e4 | indicatorObj
  · rw [h4, error_bind] at hok
    exact Except.noConfusion hok
  rw [h4, ok_bind] at hok
  rcases h5 : pyGet indicatorObj "value" Json.null with e5 | indicator_name
  · rw [h5, error_bind] at hok
    exact Except.noConfusion hok
  rw [h5, ok_bind] at hok
  rcases h6 : pyGet entry "value" Json.null with e6 | value
  · rw [h6, error_bind] at hok
    exact Except.noConfusion hok
  rw [h6, ok_bind, pure_eq_ok] at hok
  injection hok with hok
  subst hok
  exact ⟨rfl, rfl, rfl⟩

/-- C10 witness: a successful fetch whose data entry is an empty record
still echoes the inputs `BRA` / 2020 and has no `error` key. -/
theorem get_live_indicator_echoes_inputs_witness :
    Json.getKey? (Json.obj [("country", Json.str "BRA"),
      ("country_name", Json.null), ("indicator", Json.str "SP.POP.TOTL"),
      ("indicator_name", Json.null), ("year", Json.num 2020),
      ("value", Json.null)]) "country" = some (Json.str "BRA") ∧
    Json.getKey? (Json.obj [("country", Json.str "BRA"),
      ("country_name", Json.null), ("indicator", Json.str "SP.POP.TOTL"),
      ("indicator_name", Json.null), ("year", Json.num 2020),
      ("value", Json.null)]) "year" = some (Json.num 2020) ∧
    Json.getKey? (Json.obj [("country", Json.str "BRA"),
      ("country_name", Json.null), ("indicator", Json.str "SP.POP.TOTL"),
      ("indicator_name", Json.null), ("year", Json.num 2020),
      ("value", Json.null)]) "error" = none :=
  get_live_indicator_echoes_inputs [Json.null, Json.arr [Json.obj []]]
    "BRA" "SP.POP.TOTL" 2020 _ rfl rfl

/-- C3 (code bug): on a successful upstream response whose `capital` field
is the EMPTY list, `get_country_info` raises an uncaught `IndexError`
(`data.get("capital", [None])[0]` — the `[None]` default only covers the
absent-key case, and the reshaping runs outside the `try`), instead of
returning an object with `capital` null as the spec states. -/
theorem get_country_info_empty_capital_raises :
    get_country_info (FetchOutcome.success (Json.obj [("capital", Json.arr [])]))
      "ATA" = Except.error "list index out of range" := rfl

end WorldBankServer
